import Mathlib

/-!
Shallow embedding of the order-lifecycle and risk-admission engine of the
crypto-ai-trader repository, together with proofs settling the frozen claims.

Conventions of the embedding:
* Python `Decimal` values are modelled as `ℚ`.  All balance/PnL arithmetic in
  the embedded code paths uses only `+`, `-`, `*` and comparisons, on which
  `Decimal` is exact, so `ℚ` is faithful there.  Where the source divides,
  a `Decimal`/float division that can raise `ZeroDivisionError` is modelled
  explicitly with `Option` (`none` = the exception), never by `ℚ`'s total
  division at zero.
* Python dictionaries (`Portfolio.assets`, `Portfolio.positions`) are modelled
  as insertion-ordered association lists with in-place update, mirroring
  `dict` semantics.
* An uncaught Python exception escaping a method is modelled by the `exn`
  constructor of `PyResult`.
* Wall-clock fields (`opened_at`, `timestamp`) and the logger are omitted:
  no embedded code path reads them.
-/

namespace CryptoTrader

/-! ### core/event_bus.py -/

/-- Event kinds, from the `EventType` enum in core/event_bus.py. -/
inductive EventType where
  | price_update
  | ohlcv_update
  | order_book_update
  | signal_generated
  | order_placed
  | order_filled
  | order_cancelled
  | position_opened
  | position_closed
  | ai_analysis_complete
  | pattern_detected
  | sentiment_update
  | risk_alert
  | system_error
  | performance_update
deriving DecidableEq, Repr

/-- The `Event` dataclass of core/event_bus.py.  The payload dict is
abstracted to a string and the wall-clock `timestamp` is omitted; no embedded
code path inspects either. -/
structure Event where
  type : EventType
  data : String := ""
  source : String := ""
deriving DecidableEq, Repr

/-- State of the `EventBus` of core/event_bus.py: the pending event queue
(an `asyncio.Queue`, FIFO) and the `_running` flag of the dispatch loop.
The `_subscribers` dict is handled separately by the dispatch functions
below, and `_worker_task` is a scheduling handle with no data content. -/
structure EventBus where
  event_queue : List Event := []
  running : Bool := false
deriving DecidableEq, Repr

/-- A fresh `EventBus()`: empty queue, dispatch loop not running. -/
def mkEventBus : EventBus := {}

/-- `EventBus.publish`: `await self._event_queue.put(event)`.  The queue is
unbounded, so the put always succeeds and the event is appended; the method
does not consult `self._running`. -/
def EventBus.publish (b : EventBus) (e : Event) : EventBus :=
  { b with event_queue := b.event_queue ++ [e] }

/-- `EventBus.start`: sets `_running = True` (and spawns the dispatch loop,
which is modelled by the flag). -/
def EventBus.start (b : EventBus) : EventBus :=
  { b with running := true }

/-- `EventBus.stop`: sets `_running = False` and awaits the worker task.
No other state is touched; in particular the queue is not closed. -/
def EventBus.stop (b : EventBus) : EventBus :=
  { b with running := false }

/-- A subscribed handler.  A handler that raises is modelled by returning
`Except.error` with the exception message. -/
def Handler : Type := Event → Except String Unit

/-- `EventBus._call_handler`: runs one handler under `try/except`, returning
the logged error message if the handler raised, and propagating nothing —
the result type has no exception channel. -/
def EventBus.call_handler (h : Handler) (e : Event) : Option String :=
  match h e with
  | .ok _ => none
  | .error msg => some msg

/-- One dispatch pass of `EventBus._process_events` for a single event:
every handler subscribed to the event's type is invoked (concurrently in the
source; here, elementwise), each under `_call_handler`. -/
def EventBus.process_event (subs : List Handler) (e : Event) : List (Option String) :=
  subs.map (fun h => EventBus.call_handler h e)

/-- The dispatch loop of `EventBus._process_events` over a queue of events:
each queued event is dispatched in FIFO order; the loop body is wrapped in
`try/except`, so it never terminates early on a handler failure. -/
def EventBus.process_events (subs : List Handler) (queue : List Event) :
    List (List (Option String)) :=
  queue.map (fun e => EventBus.process_event subs e)

/-! ### core/portfolio.py -/

/-- Position side: the source stores `'long'` / `'short'` strings. -/
inductive Side where
  | long
  | short
deriving DecidableEq, Repr

/-- The `Asset` dataclass of core/portfolio.py. -/
structure Asset where
  symbol : String
  free : ℚ
  locked : ℚ
  total : ℚ
  usd_value : ℚ := 0
deriving DecidableEq, Repr

/-- The `Position` dataclass of core/portfolio.py (`opened_at` omitted). -/
structure Position where
  id : String
  symbol : String
  side : Side
  entry_price : ℚ
  quantity : ℚ
  stop_loss : Option ℚ := none
  take_profit : Option ℚ := none
  pnl : ℚ := 0
  pnl_percent : ℚ := 0
deriving DecidableEq, Repr

/-- `Position.update_pnl(current_price)`: recomputes `pnl` by side, then
`pnl_percent = pnl / (entry_price * quantity) * 100`.  When
`entry_price * quantity = 0` the `Decimal` division raises
(`none` here; in the source the exception escapes with `pnl` already
reassigned, a partial mutation no claim depends on). -/
def Position.update_pnl (p : Position) (current_price : ℚ) : Option Position :=
  let pnl :=
    match p.side with
    | .long => (current_price - p.entry_price) * p.quantity
    | .short => (p.entry_price - current_price) * p.quantity
  if p.entry_price * p.quantity = 0 then none
  else some { p with pnl := pnl, pnl_percent := pnl / (p.entry_price * p.quantity) * 100 }

/-- Result of a Python method call: normal return, or an uncaught exception. -/
inductive PyResult (α : Type) where
  | ok (val : α)
  | exn
deriving DecidableEq, Repr

/-- Ordered association-list lookup, mirroring `d[k]` / `k in d`. -/
def alookup {α : Type} : List (String × α) → String → Option α
  | [], _ => none
  | (k, v) :: rest, key => if k = key then some v else alookup rest key

/-- Ordered association-list upsert, mirroring `d[k] = v`: replaces the
binding in place if present, else appends (dict insertion order). -/
def aset {α : Type} : List (String × α) → String → α → List (String × α)
  | [], key, v => [(key, v)]
  | (k, v') :: rest, key, v =>
      if k = key then (key, v) :: rest else (k, v') :: aset rest key v

/-- Ordered association-list removal, mirroring `d.pop(k)`. -/
def aerase {α : Type} : List (String × α) → String → List (String × α)
  | [], _ => []
  | (k, v) :: rest, key => if k = key then rest else (k, v) :: aerase rest key

/-- State of the `Portfolio` class of core/portfolio.py.  `total_value` and
`available_balance` are set by the constructor and never updated by any
method; they are carried for faithfulness.  The `asyncio.Lock` serialises the
methods in the source, so each method is a single atomic state transformer
here. -/
structure Portfolio where
  initial_balance : ℚ
  assets : List (String × Asset)
  positions : List (String × Position)
  total_value : ℚ
  available_balance : ℚ
deriving DecidableEq, Repr

/-- `Portfolio.__init__(initial_balance)`: seeds the USDT asset with the
whole balance free. -/
def mkPortfolio (initial_balance : ℚ := 10000) : Portfolio :=
  { initial_balance := initial_balance
    assets := [("USDT",
      { symbol := "USDT", free := initial_balance, locked := 0, total := initial_balance })]
    positions := []
    total_value := initial_balance
    available_balance := initial_balance }

/-- `Portfolio.open_position(position)`: requires
`entry_price * quantity` of free USDT; on failure returns `False` with the
state untouched, on success moves the amount from free to locked and inserts
the position.  A missing `'USDT'` asset would raise `KeyError` (`exn`). -/
def Portfolio.open_position (p : Portfolio) (position : Position) :
    PyResult (Bool × Portfolio) :=
  match alookup p.assets "USDT" with
  | none => .exn
  | some usdt =>
    let required_balance := position.entry_price * position.quantity
    if usdt.free < required_balance then .ok (false, p)
    else
      let usdt' := { usdt with
        free := usdt.free - required_balance
        locked := usdt.locked + required_balance }
      .ok (true, { p with
        assets := aset p.assets "USDT" usdt'
        positions := aset p.positions position.id position })

/-- `Portfolio.close_position(position_id, close_price)`: returns `None`
(with the state untouched) if the id is absent; otherwise recomputes the
position's PnL, releases `entry_price * quantity` from locked and credits
that notional plus PnL to free (the source computes the same
`entry*qty + pnl` expression in both branches of its side `if`), recomputes
the USDT total, removes the position and returns its final snapshot. -/
def Portfolio.close_position (p : Portfolio) (position_id : String) (close_price : ℚ) :
    PyResult (Option Position × Portfolio) :=
  match alookup p.positions position_id with
  | none => .ok (none, p)
  | some position =>
    match position.update_pnl close_price with
    | none => .exn
    | some position' =>
      let notional := position'.entry_price * position'.quantity
      let result := notional + position'.pnl
      match alookup p.assets "USDT" with
      | none => .exn
      | some usdt =>
        let usdt' := { usdt with
          locked := usdt.locked - notional
          free := usdt.free + result }
        let usdt'' := { usdt' with total := usdt'.free + usdt'.locked }
        .ok (some position', { p with
          assets := aset p.assets "USDT" usdt''
          positions := aerase p.positions position_id })

/-- The statistics dict returned by `Portfolio.get_portfolio_stats`
(the per-asset sub-dict is recoverable from `Portfolio.assets` and omitted). -/
structure PortfolioStats where
  total_value : ℚ
  available_balance : ℚ
  locked_balance : ℚ
  unrealized_pnl : ℚ
  realized_pnl : ℚ
  total_pnl : ℚ
  roi_percent : ℚ
  positions_count : ℕ
deriving DecidableEq, Repr

/-- `Portfolio.get_portfolio_stats`: reads the USDT asset (defaulting to an
all-zero asset), sums open-position PnL, and derives the aggregate figures.
`roi_percent` divides by `initial_balance`, raising when it is zero
(modelled as `none`). -/
def Portfolio.get_portfolio_stats (p : Portfolio) : Option PortfolioStats :=
  let usdt := (alookup p.assets "USDT").getD
    { symbol := "USDT", free := 0, locked := 0, total := 0 }
  let total_value := usdt.total
  let unrealized_pnl := (p.positions.map (fun kv => kv.2.pnl)).sum
  if p.initial_balance = 0 then none
  else some
    { total_value := total_value
      available_balance := usdt.free
      locked_balance := usdt.locked
      unrealized_pnl := unrealized_pnl
      realized_pnl := total_value - p.initial_balance - unrealized_pnl
      total_pnl := total_value - p.initial_balance
      roi_percent := (total_value - p.initial_balance) / p.initial_balance * 100
      positions_count := p.positions.length }

/-! ### config/trading_config.py -/

/-- The `RiskConfig` pydantic model (float fields, modelled in `ℚ`),
with its declared defaults. -/
structure RiskConfig where
  max_position_size_percent : ℚ := 2
  max_daily_loss_percent : ℚ := 5
  max_drawdown_percent : ℚ := 15
  stop_loss_percent : ℚ := 2
  take_profit_percent : ℚ := 4
deriving DecidableEq, Repr

/-! ### risk/risk_manager.py -/

/-- One entry of `RiskManager.trade_history` (the fields the embedded code
paths read; `timestamp`, `duration` and `strategy` are never used by them). -/
structure Trade where
  symbol : String := ""
  side : Side := .long
  pnl : ℚ := 0
  return_percent : ℚ := 0
deriving DecidableEq, Repr

/-- State of the `RiskManager` class.  `last_reset` is a wall-clock date;
the only fact the embedded code paths extract from it is whether the UTC day
has rolled over since it was set, which the transition functions take as an
explicit boolean input. -/
structure RiskManager where
  config : RiskConfig
  portfolio : Portfolio
  daily_returns : List ℚ := []
  trade_history : List Trade := []
  peak_balance : ℚ
  daily_start_balance : ℚ
  max_historical_drawdown : ℚ := 0
deriving DecidableEq, Repr

/-- `RiskManager.__init__(risk_config, portfolio)`. -/
def mkRiskManager (config : RiskConfig) (portfolio : Portfolio) : RiskManager :=
  { config := config
    portfolio := portfolio
    peak_balance := portfolio.initial_balance
    daily_start_balance := portfolio.initial_balance }

/-- `RiskManager._calculate_daily_loss(current_balance)`.  On a UTC day
rollover the start-of-day balance is first reset to the current balance, so
the subsequent `current < start` test is false and the loss is `0`.
Otherwise the percentage loss from the start-of-day balance is returned when
positive; the division raises (`none`) when the start balance is zero. -/
def RiskManager.calculate_daily_loss (rm : RiskManager) (current_balance : ℚ)
    (dayRolledOver : Bool) : Option ℚ :=
  if dayRolledOver then some 0
  else if current_balance < rm.daily_start_balance then
    if rm.daily_start_balance = 0 then none
    else some ((rm.daily_start_balance - current_balance) / rm.daily_start_balance * 100)
  else some 0

/-- `RiskManager._calculate_current_drawdown(current_balance)`: percentage
decline from `peak_balance` when below the peak, else `0`.  The division
raises (`none`) when the peak is zero.  (The source also folds the value
into `max_historical_drawdown`; that write feeds no check in the same
call.) -/
def RiskManager.calculate_current_drawdown (rm : RiskManager) (current_balance : ℚ) :
    Option ℚ :=
  if current_balance < rm.peak_balance then
    if rm.peak_balance = 0 then none
    else some ((rm.peak_balance - current_balance) / rm.peak_balance * 100)
  else some 0

/-- `RiskManager._check_position_correlation(symbol, side)`: counts open
positions with the proposed side and reports a breach when the count is
already at least 3.  (The source lowercases the side string; sides are the
two-valued `Side` type here.) -/
def RiskManager.check_position_correlation (rm : RiskManager) (side : Side) : Bool :=
  3 ≤ (rm.portfolio.positions.filter (fun kv => kv.2.side = side)).length

/-- `RiskManager._check_concentration_risk(symbol, position_value)`.  In the
source as committed, the body references an undefined name `trades` (code of
another method was spliced into it), so every call raises `NameError`, which
its own `except` clause converts into `self._get_default_performance_metrics()`
— a dataclass instance, hence truthy.  The method therefore reports a breach
on every call, which this embedding records as the constant `true`. -/
def RiskManager.check_concentration_risk (rm : RiskManager) (symbol : String)
    (position_value : ℚ) : Bool :=
  true

/-- `RiskManager.check_position_risk(symbol, side, entry_price, quantity)`.
The checks run in source order inside a `try/except` whose handler returns
`False`, so any raising sub-computation (`ZeroDivisionError` from a zero
total value, start-of-day balance or peak) yields a denial.  `dayRolledOver`
feeds the daily-loss computation (see
`RiskManager.calculate_daily_loss`). -/
def RiskManager.check_position_risk (rm : RiskManager) (symbol : String) (side : Side)
    (entry_price quantity : ℚ) (dayRolledOver : Bool) : Bool :=
  match rm.portfolio.get_portfolio_stats with
  | none => false
  | some stats =>
    let position_value := entry_price * quantity
    let total_value := stats.total_value
    if total_value = 0 then false
    else
      let position_percent := position_value / total_value * 100
      if rm.config.max_position_size_percent < position_percent then false
      else
        match rm.calculate_daily_loss total_value dayRolledOver with
        | none => false
        | some daily_loss =>
          if rm.config.max_daily_loss_percent ≤ daily_loss then false
          else
            match rm.calculate_current_drawdown total_value with
            | none => false
            | some drawdown =>
              if rm.config.max_drawdown_percent ≤ drawdown then false
              else if rm.check_position_correlation side then false
              else if rm.check_concentration_risk symbol position_value then false
              else true

/-- Arithmetic mean of a list of rationals (`np.mean`). -/
def listMean (l : List ℚ) : ℚ := l.sum / l.length

/-- Population variance of a list of rationals (`np.std` squared;
`np.std` uses `ddof=0`).  The source compares the standard deviation against
non-negative thresholds, which is equivalent to comparing this variance
against the squared thresholds, keeping the computation inside `ℚ`. -/
def listVariance (l : List ℚ) : ℚ :=
  (l.map (fun x => (x - listMean l) ^ 2)).sum / l.length

/-- `RiskManager._get_volatility_adjustment`: neutral `1` with fewer than 10
daily returns; otherwise the (up to) last 20 returns are taken and the
adjustment is `0.7` above 3% volatility, `0.85` above 2%, `1.2` below 1%,
else `1`.  Volatility comparisons are expressed via `listVariance` (see
there). -/
def RiskManager.get_volatility_adjustment (rm : RiskManager) : ℚ :=
  if rm.daily_returns.length < 10 then 1
  else
    let recent_returns :=
      if 20 ≤ rm.daily_returns.length then
        rm.daily_returns.drop (rm.daily_returns.length - 20)
      else rm.daily_returns
    let variance := listVariance recent_returns
    if (3 / 100 : ℚ) ^ 2 < variance then 7 / 10
    else if (2 / 100 : ℚ) ^ 2 < variance then 17 / 20
    else if variance < (1 / 100 : ℚ) ^ 2 then 6 / 5
    else 1

/-- `RiskManager._calculate_kelly_fraction(symbol)`: conservative `0.25`
with fewer than 10 recorded trades or fewer than 5 relevant ones; otherwise
the Kelly fraction from win rate and average win/loss, clamped to
`[0.1, 0.5]`.  With no winning trade the float quotient `b` is `0.0` and the
Kelly expression evaluates to `-inf` without raising, so the clamp yields
`0.1` (made explicit here).  Python's `if symbol:` treats the empty string
like `None`. -/
def RiskManager.calculate_kelly_fraction (rm : RiskManager)
    (symbol : Option String) : ℚ :=
  if rm.trade_history.length < 10 then 1 / 4
  else
    let relevant_trades :=
      match symbol with
      | none => rm.trade_history
      | some s => if s = "" then rm.trade_history
                  else rm.trade_history.filter (fun t => t.symbol = s)
    if relevant_trades.length < 5 then 1 / 4
    else
      let returns := relevant_trades.map (fun t => t.return_percent / 100)
      let wins := returns.filter (fun r => 0 < r)
      let losses := returns.filter (fun r => r < 0)
      let win_rate : ℚ := wins.length / returns.length
      let avg_win := if wins.length = 0 then 0 else listMean wins
      let avg_loss := if losses.length = 0 then 1 / 100 else |listMean losses|
      if avg_loss = 0 then 1 / 4
      else if avg_win = 0 then 1 / 10
      else
        let b := avg_win / avg_loss
        let kelly_fraction := (b * win_rate - (1 - win_rate)) / b
        max (1 / 10) (min (1 / 2) kelly_fraction)

/-- `RiskManager.calculate_position_size(balance, risk_amount,
stop_distance, symbol)`: `0` for a non-positive stop distance; otherwise the
risk-based size scaled by the Kelly fraction, capped by
`balance * max_position_size_percent / 100` worth of stop distance, scaled
by the volatility adjustment, and clamped below by `0`. -/
def RiskManager.calculate_position_size (rm : RiskManager)
    (balance risk_amount stop_distance : ℚ) (symbol : Option String := none) : ℚ :=
  if stop_distance ≤ 0 then 0
  else
    let base_size := risk_amount / stop_distance
    let kelly_multiplier := rm.calculate_kelly_fraction symbol
    let adjusted_size := base_size * kelly_multiplier
    let max_position_value := balance * (rm.config.max_position_size_percent / 100)
    let max_size := max_position_value / stop_distance
    let volatility_adjustment := rm.get_volatility_adjustment
    let final_size := min adjusted_size max_size * volatility_adjustment
    max final_size 0

/-! ### core/order_manager.py

Only the rejection/retry lifecycle is embedded: the fields of `ManagedOrder`
that drive it are `retry_count` and `max_retries`.  The order's market data
(symbol, side, price, quantity) is copied unchanged into every resubmission
and does not influence the retry decisions. -/

/-- The retry-relevant state of a `ManagedOrder` dataclass instance.
The dataclass declares `retry_count: int = 0` and `max_retries: int = 3`. -/
structure ManagedOrder where
  retry_count : ℕ := 0
  max_retries : ℕ := 3
deriving DecidableEq, Repr

/-- `OrderManager._retry_order(managed_order)`: increments the order's
retry counter to `k`, sleeps `2 ** k` seconds, then places a fresh order
through `place_order`.  `place_order` constructs the replacement
`ManagedOrder` without passing `max_retries`, so the replacement gets the
dataclass default `3`; only `retry_count` is copied onto it afterwards.
Returns the backoff delay together with the replacement order. -/
def OrderManager.retry_order (m : ManagedOrder) : ℕ × ManagedOrder :=
  let k := m.retry_count + 1
  (2 ^ k, { retry_count := k, max_retries := 3 })

/-- The `rejected` branch of `OrderManager._handle_status_change`: the order
leaves the active set and is resubmitted via `_retry_order` only while
`retry_count < max_retries`; otherwise it is abandoned (`none`). -/
def OrderManager.handle_rejected (m : ManagedOrder) : Option (ℕ × ManagedOrder) :=
  if m.retry_count < m.max_retries then some (OrderManager.retry_order m) else none

/-- Fuel-indexed unfolding of the rejection chain when the venue rejects
every submission: each rejection feeds `handle_rejected`, and the chain
records the backoff delay of each resubmission until abandonment.  The fuel
only serves termination; `reject_all_delays` supplies enough of it. -/
def OrderManager.reject_chain : ℕ → ManagedOrder → List ℕ
  | 0, _ => []
  | fuel + 1, m =>
      match OrderManager.handle_rejected m with
      | none => []
      | some (delay, m') => delay :: OrderManager.reject_chain fuel m'

/-- The backoff delays of all resubmissions performed for an order whose
every submission the venue rejects.  After the first resubmission the order's
limit is the default `3` (see `OrderManager.retry_order`) and its counter
only grows, so `max_retries + 4` rounds of fuel are never exhausted. -/
def OrderManager.reject_all_delays (m : ManagedOrder) : List ℕ :=
  OrderManager.reject_chain (m.max_retries + 4) m

/-! ### core/emergency_closer.py -/

/-- Outcome of one per-position close task as observed by
`asyncio.gather(..., return_exceptions=True)` in
`emergency_close_all_positions`: a result dict with `success=True`, one with
`success=False`, or a raised exception. -/
inductive CloseAttempt where
  | ok
  | failed
  | raised
deriving DecidableEq, Repr

/-- Aggregate status strings produced by `emergency_close_all_positions`. -/
inductive CloseStatus where
  | alreadyInProgress
  | success
  | partSuccess
  | allFailed
  | criticalError
deriving DecidableEq, Repr

/-- The aggregate result dict of `emergency_close_all_positions` (the
`errors` list is recoverable from the per-position outcomes and omitted). -/
structure CloseAllResult where
  status : CloseStatus
  total_positions : ℕ := 0
  successfully_closed : ℕ := 0
  failed_to_close : ℕ := 0
deriving DecidableEq, Repr

/-- The state of `EmergencyPositionCloser` relevant to its re-entrancy guard:
the `is_emergency_mode` flag and the snapshot of open positions the sweep
would take.  (`closure_attempts` is bookkeeping no claim reads.) -/
structure EmergencyPositionCloser where
  is_emergency_mode : Bool := false
  positions : List Position := []
deriving DecidableEq, Repr

/-- `EmergencyPositionCloser.emergency_close_all_positions(reason)`.
If `is_emergency_mode` is already set, returns `already_in_progress` at once
without touching any state.  Otherwise the flag is raised, the open
positions are snapshotted and closed concurrently; the per-position outcomes
(`closeOutcomes`, one per snapshotted position) and whether the body raises
(`bodyRaises`) are inputs from the environment.  Every such run — empty
sweep, full/partial/no success, or internal exception — returns through the
`finally` clause, which clears `is_emergency_mode`. -/
def EmergencyPositionCloser.emergency_close_all_positions
    (c : EmergencyPositionCloser) (closeOutcomes : List CloseAttempt)
    (bodyRaises : Bool) : CloseAllResult × EmergencyPositionCloser :=
  if c.is_emergency_mode then
    ({ status := .alreadyInProgress }, c)
  else
    let after := { c with is_emergency_mode := false }
    if bodyRaises then ({ status := .criticalError }, after)
    else if c.positions.isEmpty then ({ status := .success }, after)
    else
      let total := c.positions.length
      let succ := (closeOutcomes.filter (fun r => r = .ok)).length
      let fails := (closeOutcomes.filter (fun r => r ≠ .ok)).length
      let status : CloseStatus :=
        if succ = total then .success
        else if 0 < succ then .partSuccess
        else .allFailed
      ({ status := status
         total_positions := total
         successfully_closed := succ
         failed_to_close := fails }, after)

/-! ## Concrete inputs used by the scenario theorems and witnesses -/

/-- The ledger scenario's starting portfolio: 10,000 USDT, all free. -/
def scenarioPortfolio : Portfolio := mkPortfolio 10000

/-- The ledger scenario's long position: BTC, entry 45,000, quantity 0.1. -/
def scenarioPosition : Position :=
  { id := "pos-1", symbol := "BTCUSDT", side := .long
    entry_price := 45000, quantity := 1 / 10 }

/-- Portfolio state after opening `scenarioPosition`: 4,500 USDT moved from
free to locked, position inserted. -/
def scenarioAfterOpen : Portfolio :=
  { initial_balance := 10000
    assets := [("USDT",
      { symbol := "USDT", free := 5500, locked := 4500, total := 10000 })]
    positions := [("pos-1", scenarioPosition)]
    total_value := 10000
    available_balance := 10000 }

/-- The closed-position snapshot returned when closing `scenarioPosition`
at 46,000: PnL `+100`, PnL percent `100/4500*100 = 20/9`. -/
def scenarioClosedPosition : Position :=
  { scenarioPosition with pnl := 100, pnl_percent := 20 / 9 }

/-- Portfolio state after the close: 10,100 USDT free, nothing locked. -/
def scenarioAfterClose : Portfolio :=
  { scenarioAfterOpen with
    assets := [("USDT",
      { symbol := "USDT", free := 10100, locked := 0, total := 10100 })]
    positions := [] }

/-! ## Claim theorems -/

/-- C1.  For a Portfolio created with initial balance 10,000 USDT (all
free), a successful `open_position` of a long position with
`entry_price = 45000` and `quantity = 0.1` leaves USDT `free = 5500` and
`locked = 4500`, and a subsequent `close_position` of that position with
`close_price = 46000` returns the closed position with `pnl = +100` and
leaves USDT `free = 10100` and `locked = 0`. -/
theorem claim_C1_ledger_scenario :
    scenarioPortfolio.open_position scenarioPosition = .ok (true, scenarioAfterOpen) ∧
    alookup scenarioAfterOpen.assets "USDT" =
      some { symbol := "USDT", free := 5500, locked := 4500, total := 10000 } ∧
    scenarioAfterOpen.close_position "pos-1" 46000 =
      .ok (some scenarioClosedPosition, scenarioAfterClose) ∧
    scenarioClosedPosition.pnl = 100 ∧
    alookup scenarioAfterClose.assets "USDT" =
      some { symbol := "USDT", free := 10100, locked := 0, total := 10100 } := by
  refine ⟨?_, ?_, ?_, ?_, ?_⟩ <;> with_unfolding_all rfl

/-- C2.  `open_position` returns failure (`False`) exactly when
`entry_price * quantity` exceeds the USDT asset's free balance, and
`close_position` returns failure (`None`) exactly when the id is not among
the open positions; in both failure cases the portfolio state is returned
unchanged.  The hypothesis pins the USDT asset, which every constructed
portfolio has (its absence would raise `KeyError` instead). -/
theorem claim_C2_failure_cases (p : Portfolio) (position : Position)
    (position_id : String) (close_price : ℚ) (usdt : Asset)
    (h : alookup p.assets "USDT" = some usdt) :
    (p.open_position position = .ok (false, p) ↔
      usdt.free < position.entry_price * position.quantity) ∧
    (∀ r, p.open_position position = .ok (false, r) → r = p) ∧
    (p.close_position position_id close_price = .ok (none, p) ↔
      alookup p.positions position_id = none) ∧
    (∀ r, p.close_position position_id close_price = .ok (none, r) → r = p) := by
  refine ⟨?_, ?_, ?_, ?_⟩
  · simp only [Portfolio.open_position, h]
    split
    · next hlt => simp [hlt]
    · next hge => simp [hge]
  · intro r he
    simp only [Portfolio.open_position, h] at he
    split at he
    · next hlt =>
      injection he with h1
      injection h1 with _ h2
      exact h2.symm
    · next hge => simp at he
  · cases hpos : alookup p.positions position_id with
    | none => simp [Portfolio.close_position, hpos]
    | some pos =>
      simp only [Portfolio.close_position, hpos]
      cases hup : pos.update_pnl close_price with
      | none => simp
      | some pos' => simp [h]
  · intro r he
    cases hpos : alookup p.positions position_id with
    | none =>
      simp only [Portfolio.close_position, hpos] at he
      injection he with h1
      injection h1 with _ h2
      exact h2.symm
    | some pos =>
      simp only [Portfolio.close_position, hpos] at he
      cases hup : pos.update_pnl close_price with
      | none => rw [hup] at he; simp at he
      | some pos' => rw [hup] at he; simp [h] at he

/-- An open request exceeding the scenario portfolio's free USDT, used to
witness the failure cases of `claim_C2_failure_cases`. -/
def oversizedPosition : Position :=
  { id := "big", symbol := "BTCUSDT", side := .long, entry_price := 45000, quantity := 1 }

/-- Witness for C2: on a fresh 10,000 USDT portfolio, opening a 45,000 USDT
notional fails with the state unchanged, and closing an unknown id fails
with the state unchanged. -/
theorem claim_C2_failure_cases_witness :
    (mkPortfolio 10000).open_position oversizedPosition = .ok (false, mkPortfolio 10000) ∧
    (mkPortfolio 10000).close_position "missing" 46000 = .ok (none, mkPortfolio 10000) :=
  ⟨(claim_C2_failure_cases (mkPortfolio 10000) oversizedPosition "missing" 46000
      { symbol := "USDT", free := 10000, locked := 0, total := 10000 }
      (by with_unfolding_all rfl)).1.mpr (by norm_num [oversizedPosition]),
   (claim_C2_failure_cases (mkPortfolio 10000) oversizedPosition "missing" 46000
      { symbol := "USDT", free := 10000, locked := 0, total := 10000 }
      (by with_unfolding_all rfl)).2.2.1.mpr (by with_unfolding_all rfl)⟩

/-- Risk manager over a fresh 10,000 USDT portfolio with the default
configuration (`max_position_size_percent = 2.0`), as in the admission
scenario. -/
def admissionManager : RiskManager := mkRiskManager {} (mkPortfolio 10000)

/-- C3 counterexample.  The claim states that with total value 10,000 and
`max_position_size_percent = 2.0` a proposed position of value 250 is
allowed; the code denies it (`250 / 10000 * 100 = 2.5 > 2.0`), so
`check_position_risk` returns `False` on exactly that input. -/
theorem claim_C3_counterexample :
    admissionManager.check_position_risk "BTCUSDT" .long 2500 (1 / 10) false = false := by
  with_unfolding_all rfl

/-- C3 as amended: with total portfolio value 10,000 and
`max_position_size_percent = 2.0`, `check_position_risk` denies a proposed
position of value 250 and also denies one of value 300 (the size threshold
is 200 = 2% of 10,000, and both proposals exceed it). -/
theorem claim_C3_amended :
    admissionManager.check_position_risk "BTCUSDT" .long 2500 (1 / 10) false = false ∧
    admissionManager.check_position_risk "BTCUSDT" .long 3000 (1 / 10) false = false :=
  ⟨by with_unfolding_all rfl, by with_unfolding_all rfl⟩

/-- In the file as committed, `check_position_risk` returns `False` on every
input: each failed sub-check returns `False`, and the final concentration
sub-check always reports a breach (see
`RiskManager.check_concentration_risk`), so the `True` leaf is
unreachable. -/
theorem check_position_risk_eq_false (rm : RiskManager) (symbol : String) (side : Side)
    (entry_price quantity : ℚ) (dayRolledOver : Bool) :
    rm.check_position_risk symbol side entry_price quantity dayRolledOver = false := by
  unfold RiskManager.check_position_risk
  cases rm.portfolio.get_portfolio_stats with
  | none => rfl
  | some stats =>
    simp only [RiskManager.check_concentration_risk, if_true]
    repeat' split
    all_goals rfl

/-- C8.  Whenever three or more open positions already have the same side as
a proposed position, `check_position_risk` denies the proposal regardless of
its size or symbol.  (The correlation sub-check reports a breach at that
count; in the committed file every earlier or later path also ends in a
denial, so the conclusion holds unconditionally a fortiori.) -/
theorem claim_C8_same_side_denial (rm : RiskManager) (symbol : String) (side : Side)
    (entry_price quantity : ℚ) (dayRolledOver : Bool)
    (h : 3 ≤ (rm.portfolio.positions.filter (fun kv => kv.2.side = side)).length) :
    rm.check_position_correlation side = true ∧
    rm.check_position_risk symbol side entry_price quantity dayRolledOver = false :=
  ⟨by simpa [RiskManager.check_position_correlation] using h,
   check_position_risk_eq_false rm symbol side entry_price quantity dayRolledOver⟩

/-- A long position used to populate the C8 witness portfolio. -/
def sameSidePosition (name : String) : Position :=
  { id := name, symbol := "BTCUSDT", side := .long, entry_price := 100, quantity := 1 }

/-- Risk manager whose portfolio already holds three long positions. -/
def threeLongManager : RiskManager :=
  mkRiskManager {} { mkPortfolio 10000 with
    positions := [("a", sameSidePosition "a"), ("b", sameSidePosition "b"),
                  ("c", sameSidePosition "c")] }

/-- Witness for C8: with three open long positions, a fourth long proposal
(of tiny size, different symbol) is denied. -/
theorem claim_C8_same_side_denial_witness :
    (3 ≤ ((threeLongManager.portfolio.positions.filter
        (fun kv => kv.2.side = Side.long)).length)) ∧
    threeLongManager.check_position_risk "ETHUSDT" .long 10 1 false = false :=
  ⟨by decide,
   (claim_C8_same_side_denial threeLongManager "ETHUSDT" .long 10 1 false (by decide)).2⟩

/-- The volatility adjustment of risk/risk_manager.py always lies in
`(0, 1.2]`: its branches return `0.7`, `0.85`, `1.2` or `1`. -/
theorem get_volatility_adjustment_bounds (rm : RiskManager) :
    0 < rm.get_volatility_adjustment ∧ rm.get_volatility_adjustment ≤ 6 / 5 := by
  simp only [RiskManager.get_volatility_adjustment]
  constructor <;> split_ifs <;> norm_num

/-- Risk manager with ten recorded zero daily returns: recent volatility is
zero, so `_get_volatility_adjustment` returns its low-volatility factor
`1.2`. -/
def lowVolManager : RiskManager :=
  { mkRiskManager {} (mkPortfolio 10000) with daily_returns := List.replicate 10 0 }

/-- C7 counterexample.  With `balance = 10000`, `risk_amount = 1000`,
`stop_distance = 1` and the default 2% cap, the cap is
`(2/100 · 10000)/1 = 200`, yet under low recent volatility
`calculate_position_size` returns `min(250, 200) · 1.2 = 240 > 200`: the
volatility adjustment scales the size above the cap. -/
theorem claim_C7_counterexample :
    lowVolManager.calculate_position_size 10000 1000 1 none = 240 ∧
    ¬ lowVolManager.calculate_position_size 10000 1000 1 none ≤
        lowVolManager.config.max_position_size_percent / 100 * 10000 / 1 := by
  constructor
  · with_unfolding_all rfl
  · intro hle
    rw [show lowVolManager.calculate_position_size 10000 1000 1 none = 240 from
          by with_unfolding_all rfl,
        show lowVolManager.config.max_position_size_percent = 2 from
          by with_unfolding_all rfl] at hle
    norm_num at hle

/-- C7 as amended: for positive stop distance, non-negative balance and a
non-negative configured cap percentage, the returned quantity never exceeds
`1.2 ×` the max-position-size cap
`(max_position_size_percent/100 · balance) / stopDistance`; the volatility
adjustment can scale the capped size up by at most that factor `1.2` (and
otherwise scales it down). -/
theorem claim_C7_amended (rm : RiskManager) (balance risk_amount stop_distance : ℚ)
    (symbol : Option String) (hstop : 0 < stop_distance) (hbal : 0 ≤ balance)
    (hpct : 0 ≤ rm.config.max_position_size_percent) :
    rm.calculate_position_size balance risk_amount stop_distance symbol ≤
      6 / 5 * (rm.config.max_position_size_percent / 100 * balance / stop_distance) := by
  obtain ⟨hv0, hv1⟩ := get_volatility_adjustment_bounds rm
  have hM : balance * (rm.config.max_position_size_percent / 100) / stop_distance =
      rm.config.max_position_size_percent / 100 * balance / stop_distance := by ring
  have hMnn : 0 ≤ rm.config.max_position_size_percent / 100 * balance / stop_distance :=
    div_nonneg (mul_nonneg (div_nonneg hpct (by norm_num)) hbal) hstop.le
  simp only [RiskManager.calculate_position_size, if_neg (not_le.mpr hstop), hM]
  set v := rm.get_volatility_adjustment with hv
  set a := risk_amount / stop_distance * rm.calculate_kelly_fraction symbol with ha
  set M := rm.config.max_position_size_percent / 100 * balance / stop_distance with hMdef
  apply max_le _ (by linarith)
  rcases le_or_lt 0 (min a M) with hmin | hmin
  · calc min a M * v ≤ min a M * (6 / 5) := mul_le_mul_of_nonneg_left hv1 hmin
      _ ≤ M * (6 / 5) := mul_le_mul_of_nonneg_right (min_le_right a M) (by norm_num)
      _ = 6 / 5 * M := by ring
  · have hneg : min a M * v < 0 := mul_neg_of_neg_of_pos hmin hv0
    nlinarith

/-- Witness for C7 as amended, at the counterexample's inputs. -/
theorem claim_C7_amended_witness :
    lowVolManager.calculate_position_size 10000 1000 1 none ≤
      6 / 5 * (lowVolManager.config.max_position_size_percent / 100 * 10000 / 1) :=
  claim_C7_amended lowVolManager 10000 1000 1 none (by norm_num) (by norm_num)
    (by rw [show lowVolManager.config.max_position_size_percent = 2 from
          by with_unfolding_all rfl]; norm_num)

/-- C10.  `calculate_position_size` returns exactly `0` for any
non-positive stop distance (guarding the division), and its result is
non-negative on all inputs whatsoever (final `max(·, 0)` clamp). -/
theorem claim_C10_size_guard_and_nonneg :
    (∀ (rm : RiskManager) (balance risk_amount stop_distance : ℚ) (symbol : Option String),
      stop_distance ≤ 0 →
        rm.calculate_position_size balance risk_amount stop_distance symbol = 0) ∧
    (∀ (rm : RiskManager) (balance risk_amount stop_distance : ℚ) (symbol : Option String),
      0 ≤ rm.calculate_position_size balance risk_amount stop_distance symbol) := by
  constructor
  · intro rm balance risk_amount stop_distance symbol h
    simp only [RiskManager.calculate_position_size, if_pos h]
  · intro rm balance risk_amount stop_distance symbol
    simp only [RiskManager.calculate_position_size]
    split
    · exact le_refl 0
    · exact le_max_right _ _

/-- Witness for C10: a negative stop distance yields exactly `0`, and a
positive one yields a non-negative size. -/
theorem claim_C10_size_guard_and_nonneg_witness :
    admissionManager.calculate_position_size 10000 1000 (-1) none = 0 ∧
    0 ≤ admissionManager.calculate_position_size 10000 1000 1 none :=
  ⟨claim_C10_size_guard_and_nonneg.1 admissionManager 10000 1000 (-1) none (by norm_num),
   claim_C10_size_guard_and_nonneg.2 admissionManager 10000 1000 1 none⟩

/-- A rejection chain halts at once when the retry counter has reached the
order's limit. -/
theorem reject_chain_stops (fuel : ℕ) (m : ManagedOrder)
    (h : m.max_retries ≤ m.retry_count) :
    OrderManager.reject_chain fuel m = [] := by
  cases fuel with
  | zero => rfl
  | succ fuel =>
    simp [OrderManager.reject_chain, OrderManager.handle_rejected, Nat.not_lt.mpr h]

/-- While the counter is below the limit, one rejection produces one
resubmission with backoff `2 ^ (retry_count + 1)` and a replacement order
carrying the incremented counter and the default limit `3`. -/
theorem reject_chain_step (fuel : ℕ) (m : ManagedOrder)
    (h : m.retry_count < m.max_retries) :
    OrderManager.reject_chain (fuel + 1) m =
      2 ^ (m.retry_count + 1) ::
        OrderManager.reject_chain fuel
          { retry_count := m.retry_count + 1, max_retries := 3 } := by
  simp [OrderManager.reject_chain, OrderManager.handle_rejected, OrderManager.retry_order, h]

/-- C4 counterexample.  The claim states that an order with limit
`max_retries` is resubmitted exactly `max_retries` times; for an order with
`max_retries = 1` the always-rejecting chain performs 3 resubmissions, not
1, because each replacement order is created with the dataclass default
limit of 3. -/
theorem claim_C4_counterexample :
    (OrderManager.reject_all_delays { retry_count := 0, max_retries := 1 }).length = 3 ∧
    (3 : ℕ) ≠ 1 := by
  decide

/-- C4 as amended: when the venue rejects every submission, an order whose
counter starts at 0 is resubmitted exactly 3 times whenever its
`max_retries` is at least 1 (and never when it is 0) — the replacement
orders carry the default limit 3 rather than the original — and the delay
before the k-th resubmission is `2 ^ k` time units, strictly increasing:
the delays are `[2^1, 2^2, 2^3]`. -/
theorem claim_C4_amended (max_retries : ℕ) :
    OrderManager.reject_all_delays { retry_count := 0, max_retries := max_retries } =
      if max_retries = 0 then [] else [2 ^ 1, 2 ^ 2, 2 ^ 3] := by
  cases max_retries with
  | zero => rfl
  | succ n =>
    show OrderManager.reject_chain (n + 1 + 4)
      { retry_count := 0, max_retries := n + 1 } = _
    have h1 : n + 1 + 4 = (n + 4) + 1 := by omega
    rw [h1, reject_chain_step _ _ (Nat.succ_pos n)]
    have h2 : n + 4 = (n + 3) + 1 := by omega
    rw [h2, reject_chain_step _ _ (by norm_num)]
    have h3 : n + 3 = (n + 2) + 1 := by omega
    rw [h3, reject_chain_step _ _ (by norm_num)]
    rw [reject_chain_stops _ _ (by norm_num)]
    simp

/-- A concrete event used by the event-bus witnesses. -/
def probeEvent : Event := { type := .system_error }

/-- C5 counterexample.  The claim states that after `stop()` any further
`publish` is rejected rather than enqueuing the event; in the code `publish`
never consults `_running`, so publishing on a started-then-stopped bus still
appends the event to the queue. -/
theorem claim_C5_counterexample :
    ((mkEventBus.start).stop.publish probeEvent).event_queue = [probeEvent] := rfl

/-- C5 as amended: `publish` enqueues the event unconditionally — both
while the bus runs (the claim's first half, which holds) and after `stop()`
has completed; stopping only clears the dispatch-loop flag and never causes
a publish to be rejected. -/
theorem claim_C5_amended (b : EventBus) (e : Event) :
    b.publish e = { b with event_queue := b.event_queue ++ [e] } := rfl

/-- C6.  Invoking `emergency_close_all_positions` while a previous
invocation is still closing (`is_emergency_mode` set) returns the
already-in-progress outcome with every piece of closer state untouched, so
the in-flight sweep is unaffected; and any invocation that passes the guard
— success, empty sweep, partial success, total failure, or internal
exception — returns with `is_emergency_mode = False` (the `finally`
clause). -/
theorem claim_C6_reentrancy_and_reset (c : EmergencyPositionCloser)
    (closeOutcomes : List CloseAttempt) (bodyRaises : Bool) :
    (c.is_emergency_mode = true →
      c.emergency_close_all_positions closeOutcomes bodyRaises =
        ({ status := .alreadyInProgress }, c)) ∧
    (c.is_emergency_mode = false →
      (c.emergency_close_all_positions closeOutcomes bodyRaises).2.is_emergency_mode
        = false) := by
  constructor
  · intro h
    simp [EmergencyPositionCloser.emergency_close_all_positions, h]
  · intro h
    simp only [EmergencyPositionCloser.emergency_close_all_positions, h,
      Bool.false_eq_true, if_false]
    split_ifs <;> rfl

/-- Witness for C6: a closer already in emergency mode reports
already-in-progress and is left untouched; one in idle mode returns with
the flag cleared. -/
theorem claim_C6_reentrancy_and_reset_witness :
    ((⟨true, []⟩ : EmergencyPositionCloser).emergency_close_all_positions [] false =
      ({ status := .alreadyInProgress }, (⟨true, []⟩ : EmergencyPositionCloser))) ∧
    (((⟨false, []⟩ : EmergencyPositionCloser).emergency_close_all_positions
        [] false).2.is_emergency_mode = false) :=
  ⟨(claim_C6_reentrancy_and_reset ⟨true, []⟩ [] false).1 rfl,
   (claim_C6_reentrancy_and_reset ⟨false, []⟩ [] false).2 rfl⟩

/-- A handler that raises on every event. -/
def raisingHandler : Handler := fun _ => .error "boom"

/-- A handler that returns normally on every event. -/
def quietHandler : Handler := fun _ => .ok ()

/-- C9.  During a dispatch pass every subscribed handler is invoked: the
outcome list has one entry per handler and the i-th entry is computed from
the i-th handler alone, so a raising handler cannot suppress or alter the
invocation of any sibling; a handler's exception is converted by
`_call_handler` into a logged message (result type `Option String`, no
exception channel), so it never propagates; and the dispatch loop processes
every queued event. -/
theorem claim_C9_handler_isolation (subs : List Handler) (e : Event)
    (queue : List Event) :
    (EventBus.process_event subs e).length = subs.length ∧
    (∀ i : ℕ, (EventBus.process_event subs e)[i]? =
      (subs[i]?).map (fun h => EventBus.call_handler h e)) ∧
    (∀ (h : Handler) (msg : String), h e = Except.error msg →
      EventBus.call_handler h e = some msg) ∧
    (EventBus.process_events subs queue).length = queue.length := by
  refine ⟨by simp [EventBus.process_event], fun i => ?_, fun h msg hraise => ?_,
    by simp [EventBus.process_events]⟩
  · simp [EventBus.process_event]
  · simp [EventBus.call_handler, hraise]

/-- Witness for C9: with a raising handler subscribed first and a quiet one
second, the raising handler's error is logged (not propagated) and the
quiet handler is still invoked with its own outcome. -/
theorem claim_C9_handler_isolation_witness :
    EventBus.call_handler raisingHandler probeEvent = some "boom" ∧
    (EventBus.process_event [raisingHandler, quietHandler] probeEvent)[1]? =
      some (EventBus.call_handler quietHandler probeEvent) := by
  refine ⟨?_, ?_⟩
  · exact (claim_C9_handler_isolation [raisingHandler, quietHandler] probeEvent
      []).2.2.1 raisingHandler "boom" rfl
  · have h := (claim_C9_handler_isolation [raisingHandler, quietHandler] probeEvent
      []).2.1 1
    simpa using h

end CryptoTrader
